import Mathlib

/-!
Shallow embedding of `src/main.py` (a FastAPI tutorial application).

Modelling conventions, all derived from the Python source:
* `datetime` values are microseconds since the epoch (`Int`); `timedelta`
  values are microsecond counts (`Int`); Python's datetime arithmetic is
  exact integer arithmetic on these.
* Python `None`-able parameters are `Option` values.
* Python truthiness: an optional string is truthy iff it is present and
  non-empty; an `int` is truthy iff it is non-zero; a pydantic model
  instance is truthy iff it is present (model instances have no custom
  truthiness, so a present instance is always truthy).
* A Python binary `+` / `-` that raises `TypeError` whenever a `None`
  operand is involved is modelled by `optAdd` / `optSub` returning `none`;
  a handler propagating such a failure returns `none` (an unhandled
  exception, surfaced by the framework as a server error, not as a
  validation error).
* Route-level validation (the declared `Path`/`Query`/`Field` constraints)
  is modelled by `..._route` wrappers that return `none` exactly when a
  declared constraint is violated, and otherwise run the handler body.
* `float` request values are modelled as exact rationals (`Rat`); the
  constraints compared against (`gt=0`, `ge=-10`, `lt=10.5`) are exact in
  both worlds.
-/

namespace FastapiPractice

/-- Python `datetime.datetime`, as microseconds since the epoch. -/
abbrev PyDateTime := Int

/-- Python `datetime.timedelta`, as a microsecond count. -/
abbrev PyTimeDelta := Int

/-- Python `datetime.time`, as microseconds since midnight (only echoed, never computed with). -/
abbrev PyTime := Int

/-- Python `uuid.UUID`, kept as its canonical string form (only echoed). -/
abbrev PyUUID := String

/-- Python `a + b` on optional operands: `TypeError` (modelled `none`) if either is `None`. -/
def optAdd : Option Int → Option Int → Option Int
  | some a, some b => some (a + b)
  | _, _ => none

/-- Python `a - b` on optional operands: `TypeError` (modelled `none`) if either is `None`. -/
def optSub : Option Int → Option Int → Option Int
  | some a, some b => some (a - b)
  | _, _ => none

/-- Python truthiness of an optional string (`if q:`): present and non-empty. -/
def strTruthy : Option String → Bool
  | some s => !(s = "")
  | none => false

/-- Model `Item` (`class Item(BaseModel)`): `name`, optional `description` (max length 300),
`price` (`gt=0`), optional `tax`. -/
structure Item where
  name : String
  description : Option String
  price : Rat
  tax : Option Rat
deriving DecidableEq, Repr

/-- The declared pydantic constraints on `Item`: `price` has `Field(gt=0)` and
`description` has `Field(max_length=300)`. -/
def itemValid (i : Item) : Bool :=
  (0 < i.price) &&
    (match i.description with
     | some d => d.length ≤ 300
     | none => true)

/-- Model `User` (`class User(BaseModel)`): `username`, optional `full_name`. -/
structure User where
  username : String
  full_name : Option String
deriving DecidableEq, Repr

/-- Enumeration `ModelName` (`class ModelName(str, Enum)`) with members `alexnet`, `resnet`, `lenet`. -/
inductive ModelName
  | alexnet
  | resnet
  | lenet
deriving DecidableEq, Repr

/-- Model `Shot` (`class Shot(BaseModel)`): `name`, `thumbnail_url`, `image_url` (URLs kept as strings). -/
structure Shot where
  name : String
  thumbnail_url : String
  image_url : String
deriving DecidableEq, Repr

/-- Model `ShotV2` (`class ShotV2(BaseModel)`): a single UUID field (declared but unused by any route). -/
structure ShotV2 where
  item_id : PyUUID
deriving DecidableEq, Repr

/-- One entry of `fake_items_db`: a dict with the single key `item_name`. -/
structure ItemRow where
  item_name : String
deriving DecidableEq, Repr

/-- Module-level `fake_items_db`, the fixed three-entry sample list. -/
def fake_items_db : List ItemRow :=
  [ItemRow.mk "Foo", ItemRow.mk "Bar", ItemRow.mk "Baz"]

/-- CPython list slicing `xs[start:stop]` (step 1): negative indices count from
the end, then both endpoints are clamped into `[0, len(xs)]`. -/
def pythonSlice {α : Type} (xs : List α) (start stop : Int) : List α :=
  let n : Int := xs.length
  let s : Nat := (if start < 0 then max (n + start) 0 else min start n).toNat
  let e : Nat := (if stop < 0 then max (n + stop) 0 else min stop n).toNat
  (xs.take e).drop s

/-- Response of `GET /items/{item_id}` (`read_item`): `item_id` always, `q` when
truthy, the canned `description` when `short` is false. -/
structure ReadItemResult where
  item_id : Int
  q : Option String
  description : Option String
deriving DecidableEq, Repr

/-- Body of `read_item`: builds `{"item_id": ...}`, adds `q` if truthy, adds the
canned description unless `short`. -/
def read_item (item_id : Int) (q : Option String) (short : Bool) : ReadItemResult :=
  ReadItemResult.mk item_id
    (if strTruthy q then q else none)
    (if short then none
     else some "This is an amazing item that has a long description")

/-- Declared constraint of `read_item`'s `size` query parameter: `ge=-10, lt=10.5`
(checked only when a value is supplied). -/
def sizeOk : Option Rat → Bool
  | some v => (-10 ≤ v) && (v < (21 : Rat) / 2)
  | none => true

/-- Route `GET /items/{item_id}` with its declared validation: `item_id` has
`Path(gt=0, le=1000)`, `size` has `Query(ge=-10, lt=10.5)`; a violated
constraint is a validation error (`none`), otherwise the handler body runs. -/
def read_item_route (item_id : Int) (q : Option String) (size : Option Rat)
    (short : Bool) : Option ReadItemResult :=
  if (0 < item_id) && (item_id ≤ 1000) && sizeOk size then
    some (read_item item_id q short)
  else
    none

/-- Response of `PUT /items/{item_id}` (`update_item`). -/
structure UpdateItemResult where
  item_id : Int
  q : Option String
  item : Option Item
  user : Option User
  importance : Option Int
deriving DecidableEq, Repr

/-- Body of `update_item`: starts from `{"item_id": ...}` and adds each of `q`,
`item`, `user`, `importance` only when truthy (for the `int` body parameter
`importance`, truthy means non-zero). -/
def update_item (item_id : Int) (q : Option String) (item : Option Item)
    (user : Option User) (importance : Int) : UpdateItemResult :=
  UpdateItemResult.mk item_id
    (if strTruthy q then q else none)
    item
    user
    (if importance = 0 then none else some importance)

/-- Route `PUT /items/{item_id}` with its declared validation: `item_id` has
`Path(ge=0, le=1000)`, and a supplied `item` body must satisfy `Item`'s field
constraints. -/
def update_item_route (item_id : Int) (q : Option String) (item : Option Item)
    (user : Option User) (importance : Int) : Option UpdateItemResult :=
  if (0 ≤ item_id) && (item_id ≤ 1000) &&
      (match item with
       | some i => itemValid i
       | none => true) then
    some (update_item item_id q item user importance)
  else
    none

/-- Route `POST /items` (`create_item`): the handler body just returns the item. -/
def create_item (item : Item) : Item := item

/-- Route `POST /items` with its declared validation: the `Item` body must satisfy its
field constraints (`price > 0`, `description` length at most 300). -/
def create_item_route (item : Item) : Option Item :=
  if itemValid item then some (create_item item) else none

/-- Response of `PUT /shots/{shot_id}` (`update_shots`) when the handler body
runs to completion. -/
structure UpdateShotsResult where
  shot_id : PyUUID
  start_datetime : Option PyDateTime
  end_datetime : Option PyDateTime
  repeat_at : Option PyTime
  process_after : Option PyTimeDelta
  start_process : PyDateTime
  duration : PyTimeDelta
deriving DecidableEq, Repr

/-- Body of `update_shots`: all four body parameters are declared optional
(`Body(default=None)`), yet the handler unconditionally computes
`start_process = start_datetime + process_after` and
`duration = end_datetime - start_process`; either expression raises
`TypeError` (modelled `none`) when an operand is `None`. -/
def update_shots (shot_id : PyUUID) (start_datetime end_datetime : Option PyDateTime)
    (repeat_at : Option PyTime) (process_after : Option PyTimeDelta) :
    Option UpdateShotsResult := do
  let start_process ← optAdd start_datetime process_after
  let duration ← optSub end_datetime (some start_process)
  pure (UpdateShotsResult.mk shot_id start_datetime end_datetime repeat_at
    process_after start_process duration)

/-- Route `GET /items` (`read_item_with_params`): returns
`fake_items_db[skip : skip + limit]` with Python slice semantics; `skip` and
`limit` carry no declared constraints. -/
def read_item_with_params (skip limit : Int) : List ItemRow :=
  pythonSlice fake_items_db skip (skip + limit)

/-- Response of `GET /users/{user_id}/items/{item_id}` (`read_user_item2`). -/
structure ReadUserItemResult where
  item_id : String
  owner_id : Int
  q : Option String
  description : Option String
deriving DecidableEq, Repr

/-- Body of `read_user_item2`: `{"item_id", "owner_id"}` plus `q` when truthy and
the canned description unless `short`. -/
def read_user_item2 (user_id : Int) (item_id : String) (q : Option String)
    (short : Bool) : ReadUserItemResult :=
  ReadUserItemResult.mk item_id user_id
    (if strTruthy q then q else none)
    (if short then none
     else some "This is an amazing item that has a long description")

/-- Declared constraint of `read_user_item2`'s `q`: `min_length=3, max_length=50`
(checked only when a value is supplied). -/
def qLenOk : Option String → Bool
  | some s => (3 ≤ s.length) && (s.length ≤ 50)
  | none => true

/-- Route `GET /users/{user_id}/items/{item_id}` with its declared validation. -/
def read_user_item2_route (user_id : Int) (item_id : String) (q : Option String)
    (short : Bool) : Option ReadUserItemResult :=
  if qLenOk q then some (read_user_item2 user_id item_id q short) else none

/-- Response of `GET /models/{model_name}` (`get_model`). -/
structure GetModelResult where
  model_name : ModelName
  message : String
deriving DecidableEq, Repr

/-- Body of `get_model`: alexnet is matched first, then `value == "lenet"`, and
the remaining member (resnet) falls through to the final return. -/
def get_model (model_name : ModelName) : GetModelResult :=
  if model_name = ModelName.alexnet then
    GetModelResult.mk model_name "Deep Learning FTW!"
  else if model_name = ModelName.lenet then
    GetModelResult.mk model_name "LeCNN all the images"
  else
    GetModelResult.mk model_name "Have some residuals"

/-- A validated request to any declared route of the application, carrying the
already-parsed typed parameters (parsing itself is the framework's job). -/
inductive Request
  | root
  | createItem (item : Item)
  | readItem (item_id : Int) (q : Option String) (size : Option Rat) (short : Bool)
  | readShot (shot_id : String) (needy : String)
  | updateItem (item_id : Int) (q : Option String) (item : Option Item)
      (user : Option User) (importance : Int)
  | createShots (shot : Shot)
  | updateShots (shot_id : PyUUID) (start_datetime end_datetime : Option PyDateTime)
      (repeat_at : Option PyTime) (process_after : Option PyTimeDelta)
  | readItems (skip limit : Int)
  | usersMe
  | readUserItem (user_id : Int) (item_id : String) (q : Option String) (short : Bool)
  | readUser (user_id : String)
  | getModel (model_name : ModelName)
  | readFile (file_path : String)
  | indexWeights (weights : List (Int × Rat))
  | getHeader (user_agent api_key : Option String)

/-- A response of the application: one constructor per handler result shape,
plus the framework's validation-error response and the server-error response
produced when a handler raises an unhandled exception. -/
inductive Response
  | validationError
  | serverError
  | rootMsg (message : String)
  | createdItem (item : Item)
  | itemRead (r : ReadItemResult)
  | shotRead (shot_id needy : String)
  | itemUpdated (r : UpdateItemResult)
  | shotsCreated (shot : Shot)
  | shotsUpdated (r : UpdateShotsResult)
  | itemsList (rows : List ItemRow)
  | userMe (user_id : String)
  | userItemRead (r : ReadUserItemResult)
  | userRead (user_id : String)
  | modelRead (r : GetModelResult)
  | fileRead (file_path : String)
  | weights (w : List (Int × Rat))
  | headerEcho (user_agent api_key : Option String)
deriving DecidableEq, Repr

/-- The application's state: the module-level `fake_items_db` list, the only
module-level value a handler reads. -/
abbrev DB := List ItemRow

/-- Dispatch one request against the current state: run the route's declared
validation, then the handler body, exactly as in the source. `GET /items` is
the only route that reads the state; no route writes to it. -/
def respond (db : DB) : Request → Response
  | Request.root => Response.rootMsg "Hello world"
  | Request.createItem item =>
      match create_item_route item with
      | some i => Response.createdItem i
      | none => Response.validationError
  | Request.readItem item_id q size short =>
      match read_item_route item_id q size short with
      | some r => Response.itemRead r
      | none => Response.validationError
  | Request.readShot shot_id needy => Response.shotRead shot_id needy
  | Request.updateItem item_id q item user importance =>
      match update_item_route item_id q item user importance with
      | some r => Response.itemUpdated r
      | none => Response.validationError
  | Request.createShots shot => Response.shotsCreated shot
  | Request.updateShots shot_id sd ed ra pa =>
      match update_shots shot_id sd ed ra pa with
      | some r => Response.shotsUpdated r
      | none => Response.serverError
  | Request.readItems skip limit =>
      Response.itemsList (pythonSlice db skip (skip + limit))
  | Request.usersMe => Response.userMe "the current user"
  | Request.readUserItem user_id item_id q short =>
      match read_user_item2_route user_id item_id q short with
      | some r => Response.userItemRead r
      | none => Response.validationError
  | Request.readUser user_id => Response.userRead user_id
  | Request.getModel m => Response.modelRead (get_model m)
  | Request.readFile p => Response.fileRead p
  | Request.indexWeights w => Response.weights w
  | Request.getHeader ua ak => Response.headerEcho ua ak

/-- One request step: the response together with the state after the request.
No handler in the source assigns to or mutates `fake_items_db` (slicing builds
a fresh list), so the state after a step is the state before it. -/
def handle (db : DB) (r : Request) : Response × DB :=
  (respond db r, db)

/-- Run a sequence of requests from the given state, returning the final state. -/
def run (db : DB) (reqs : List Request) : DB :=
  reqs.foldl (fun d r => (handle d r).2) db


lemma pythonSlice_nonneg {α : Type} (xs : List α) (s l : Int) (hs : 0 ≤ s) (hl : 0 ≤ l) :
    pythonSlice xs s (s + l) = (xs.drop s.toNat).take l.toNat := by
  unfold pythonSlice
  simp only [if_neg (by omega : ¬ s < 0), if_neg (by omega : ¬ s + l < 0)]
  rw [List.drop_take]
  by_cases hsn : s ≤ (xs.length : Int)
  · have h1 : (min s (xs.length : Int)).toNat = s.toNat := by omega
    rw [h1, List.take_eq_take]
    simp only [List.length_drop]
    omega
  · rw [List.drop_eq_nil_of_le (by omega), List.drop_eq_nil_of_le (by omega)]
    simp

lemma run_id (db : DB) (reqs : List Request) : run db reqs = db := by
  induction reqs generalizing db with
  | nil => rfl
  | cons r rs ih => exact ih db

/-- C1: refuted as stated; the code is at fault. All four body parameters of
`PUT /shots/{shot_id}` are declared optional, so the empty body passes
validation, yet the handler unconditionally computes
`start_datetime + process_after`, which raises an unhandled `TypeError`
(a server error, not a validation error) when the fields are omitted. -/
theorem c1_update_shots_empty_body_crashes :
    update_shots "f902674b-0526-4a35-884a-b2eb809bd7ab" none none none none = none ∧
    respond fake_items_db
        (Request.updateShots "f902674b-0526-4a35-884a-b2eb809bd7ab" none none none none) =
      Response.serverError :=
  ⟨rfl, rfl⟩

/-- C2: confirmed. When `start_datetime`, `end_datetime` and `process_after` are
all provided, `PUT /shots/{shot_id}` echoes `shot_id` and the inputs and returns
`start_process = start_datetime + process_after` and
`duration = end_datetime - start_process`, computed exactly. -/
theorem c2_update_shots_arithmetic (shot_id : PyUUID) (s e : PyDateTime)
    (ra : Option PyTime) (p : PyTimeDelta) :
    update_shots shot_id (some s) (some e) ra (some p) =
      some (UpdateShotsResult.mk shot_id (some s) (some e) ra (some p)
        (s + p) (e - (s + p))) :=
  rfl

/-- C3 counterexample: the claim that every provided value appears in the
response fails. `PUT /items/{item_id}` with the provided body value
`importance = 0` (validated: no constraint is declared on `importance`) drops
`importance` from the response, because `if importance:` is false at `0`. -/
theorem c3_importance_zero_dropped :
    (update_item 1 none none none 0).importance = none := by decide

/-- C3 amended: handlers echo `item_id`/`owner_id` and the model bodies
unchanged, but a provided value guarded by `if value:` appears in the response
only when it is truthy: a provided non-empty `q` and a provided non-zero
`importance` are always included, while `q = ""` and `importance = 0` are
dropped. -/
theorem c3_truthy_passthrough :
    (∀ (item_id : Int) (q : Option String) (item : Option Item) (user : Option User)
        (importance : Int),
      (update_item item_id q item user importance).item_id = item_id ∧
      (update_item item_id q item user importance).item = item ∧
      (update_item item_id q item user importance).user = user ∧
      (∀ s : String, q = some s → s ≠ "" →
        (update_item item_id q item user importance).q = some s) ∧
      (importance ≠ 0 →
        (update_item item_id q item user importance).importance = some importance) ∧
      (importance = 0 →
        (update_item item_id q item user importance).importance = none) ∧
      (q = some "" →
        (update_item item_id q item user importance).q = none)) ∧
    (∀ (item_id : Int) (q : Option String) (short : Bool),
      (read_item item_id q short).item_id = item_id ∧
      (∀ s : String, q = some s → s ≠ "" → (read_item item_id q short).q = some s) ∧
      (q = some "" → (read_item item_id q short).q = none)) ∧
    (∀ (user_id : Int) (item_id : String) (q : Option String) (short : Bool),
      (read_user_item2 user_id item_id q short).item_id = item_id ∧
      (read_user_item2 user_id item_id q short).owner_id = user_id ∧
      (∀ s : String, q = some s → s ≠ "" →
        (read_user_item2 user_id item_id q short).q = some s) ∧
      (q = some "" → (read_user_item2 user_id item_id q short).q = none)) := by
  refine ⟨?_, ?_, ?_⟩
  · intro item_id q item user importance
    refine ⟨rfl, rfl, rfl, ?_, ?_, ?_, ?_⟩
    · intro s hq hs
      simp [update_item, strTruthy, hq, hs]
    · intro h
      simp [update_item, h]
    · intro h
      simp [update_item, h]
    · intro hq
      simp [update_item, strTruthy, hq]
  · intro item_id q short
    refine ⟨rfl, ?_, ?_⟩
    · intro s hq hs
      simp [read_item, strTruthy, hq, hs]
    · intro hq
      simp [read_item, strTruthy, hq]
  · intro user_id item_id q short
    refine ⟨rfl, rfl, ?_, ?_⟩
    · intro s hq hs
      simp [read_user_item2, strTruthy, hq, hs]
    · intro hq
      simp [read_user_item2, strTruthy, hq]

/-- Witness for the amended C3 at a concrete input: a provided non-empty `q`
is echoed by `PUT /items/{item_id}`. -/
theorem c3_truthy_passthrough_witness :
    (update_item 7 (some "hello") none none 0).q = some "hello" :=
  (c3_truthy_passthrough.1 7 (some "hello") none none 0).2.2.2.1 "hello" rfl (by decide)

/-- C4: confirmed. `GET /items` returns `fake_items_db[skip : skip + limit]`;
for non-negative `skip` and `limit` this is the sublist that drops the first
`skip` entries and keeps the next `limit`, and at `skip = 0`, `limit = 2` it is
exactly the first two entries, in order. -/
theorem c4_read_items_slice :
    read_item_with_params 0 2 = [ItemRow.mk "Foo", ItemRow.mk "Bar"] ∧
    ∀ skip limit : Int, 0 ≤ skip → 0 ≤ limit →
      read_item_with_params skip limit =
        (fake_items_db.drop skip.toNat).take limit.toNat := by
  refine ⟨by decide, ?_⟩
  intro skip limit hs hl
  exact pythonSlice_nonneg fake_items_db skip limit hs hl

/-- Witness for C4 at a concrete input. -/
theorem c4_read_items_slice_witness :
    read_item_with_params 1 2 = [ItemRow.mk "Bar", ItemRow.mk "Baz"] :=
  (c4_read_items_slice.2 1 2 (by decide) (by decide)).trans (by decide)

/-- C5: confirmed. With the `size` query parameter satisfying its own declared
constraint, `GET /items/{item_id}` is rejected by validation exactly when
`item_id ≤ 0` or `item_id > 1000`, and inside `(0, 1000]` the handler runs and
returns the item mapping. -/
theorem c5_read_item_validation (item_id : Int) (q : Option String)
    (size : Option Rat) (short : Bool) (hsize : sizeOk size = true) :
    (read_item_route item_id q size short = none ↔
      item_id ≤ 0 ∨ 1000 < item_id) ∧
    (0 < item_id → item_id ≤ 1000 →
      read_item_route item_id q size short = some (read_item item_id q short)) := by
  unfold read_item_route
  simp only [hsize, Bool.and_true]
  by_cases h1 : 0 < item_id <;> by_cases h2 : item_id ≤ 1000 <;>
    simp [h1, h2] <;> omega

/-- Witness for C5 at a concrete input. -/
theorem c5_read_item_validation_witness :
    read_item_route 5 none none false = some (read_item 5 none false) :=
  (c5_read_item_validation 5 none none false rfl).2 (by decide) (by decide)

/-- C6: confirmed. `POST /items` rejects every body with `price ≤ 0` as a
validation error, and for `price > 0` with `description` within its length
bound the handler runs and echoes the validated item. -/
theorem c6_create_item_validation (item : Item) :
    (item.price ≤ 0 → create_item_route item = none) ∧
    (0 < item.price → (∀ d : String, item.description = some d → d.length ≤ 300) →
      create_item_route item = some item) := by
  obtain ⟨n, d, p, t⟩ := item
  constructor
  · intro hp
    have : ¬ (0 < p) := not_lt.mpr hp
    simp [create_item_route, itemValid, this]
  · intro hp hd
    cases d with
    | none => simp [create_item_route, itemValid, create_item, hp]
    | some d0 =>
        have := hd d0 rfl
        simp only at this
        simp [create_item_route, itemValid, create_item, hp, this]

/-- Witness for C6 at a concrete input: the sample item with price 35.4. -/
theorem c6_create_item_validation_witness :
    create_item_route (Item.mk "Foo" none ((354 : Rat) / 10) none) =
      some (Item.mk "Foo" none ((354 : Rat) / 10) none) :=
  (c6_create_item_validation (Item.mk "Foo" none ((354 : Rat) / 10) none)).2
    (by norm_num) (fun d h => nomatch h)

/-- C7: confirmed. `GET /models/{model_name}` echoes the enum member and
returns its fixed message; the three messages are pairwise distinct, with
alexnet, lenet and resnet mapped exactly as the claim states. -/
theorem c7_get_model_messages :
    get_model ModelName.alexnet =
      GetModelResult.mk ModelName.alexnet "Deep Learning FTW!" ∧
    get_model ModelName.lenet =
      GetModelResult.mk ModelName.lenet "LeCNN all the images" ∧
    get_model ModelName.resnet =
      GetModelResult.mk ModelName.resnet "Have some residuals" ∧
    (∀ m : ModelName, (get_model m).model_name = m) ∧
    (get_model ModelName.alexnet).message ≠ (get_model ModelName.resnet).message ∧
    (get_model ModelName.alexnet).message ≠ (get_model ModelName.lenet).message ∧
    (get_model ModelName.resnet).message ≠ (get_model ModelName.lenet).message := by
  refine ⟨rfl, rfl, rfl, ?_, by decide, by decide, by decide⟩
  intro m
  cases m <;> rfl

/-- C8: confirmed. `fake_items_db` is the fixed three-entry list and no
sequence of requests to any route changes it: every request step leaves the
application state unchanged. -/
theorem c8_fake_items_db_immutable :
    fake_items_db = [ItemRow.mk "Foo", ItemRow.mk "Bar", ItemRow.mk "Baz"] ∧
    ∀ reqs : List Request, run fake_items_db reqs = fake_items_db :=
  ⟨rfl, fun reqs => run_id fake_items_db reqs⟩

/-- C9: confirmed. Handlers are deterministic and stateless: the response to a
request is the same after any two prior request histories, so it depends only
on the request's own validated inputs. -/
theorem c9_stateless_deterministic :
    ∀ (hist1 hist2 : List Request) (r : Request),
      respond (run fake_items_db hist1) r = respond (run fake_items_db hist2) r := by
  intro hist1 hist2 r
  rw [run_id, run_id]

/-- C10: confirmed. `GET /items` accepts a negative `skip` (no validation error
is produced) and applies Python slice semantics relative to the end of the
list: `skip = -1`, `limit = 10` yields exactly the last entry. -/
theorem c10_negative_skip :
    read_item_with_params (-1) 10 = [ItemRow.mk "Baz"] ∧
    respond fake_items_db (Request.readItems (-1) 10) =
      Response.itemsList [ItemRow.mk "Baz"] :=
  ⟨by decide, by decide⟩

end FastapiPractice
